import Mathlib

/-!
Shallow embedding of the `capi2mapi` PowerVS conversion engine
(cluster-capi-operator, package `capi2mapi`): the Machine / MachineSet
assemblers `ToMachine` / `ToMachineSet`, the field mapper `toProviderSpec`,
the payload encoder `rawExtensionFromPowerVSProviderSpec`, and the three
resource-reference normalizers `convertPowerVSNetworkToMAPI`,
`convertPowerVSImageToMAPI`, `convertPowerVSServiceInstanceToMAPI`.

Go nilable pointers are modelled as `Option`; Go maps of labels and
annotations as association lists; a nil-pointer dereference (a Go runtime
panic) is modelled by the `GoResult.nilPanic` outcome of the functions
that can reach one.  The two generic metadata converters
(`fromCAPIMachineToMAPIMachine`, `fromCAPIMachineSetToMAPIMachineSet`) and
the JSON serializer are external to the sources and are taken as explicit
parameters, with spec-modelled concrete instances for evaluation.
-/

namespace Capi2Mapi

/-- Outcome of running a piece of Go code that may hit a nil-pointer
dereference: either a normal return value or a runtime panic. -/
inductive GoResult (α : Type) where
  | ok : α → GoResult α
  | nilPanic : GoResult α
  deriving DecidableEq, Repr

/-- CAPIBM `IBMPowerVSResourceReference`: three nilable alternatives
identifying one cloud resource. -/
structure IBMPowerVSResourceReference where
  ID : Option String
  Name : Option String
  RegEx : Option String
  deriving DecidableEq, Repr

/-- corev1 `LocalObjectReference` (used as the `ImageRef` fallback). -/
structure LocalObjectReference where
  Name : String
  deriving DecidableEq, Repr

/-- MAPI `PowerVSResourceType` tag.  The Go type is a string; `empty` is
the Go zero value "". -/
inductive PowerVSResourceType where
  | empty
  | id
  | name
  | regex
  deriving DecidableEq, Repr

/-- MAPI `PowerVSResource`: tag plus three nilable payload fields.
The Go field `Type` is rendered `typ` (Lean reserves `Type`). -/
structure PowerVSResource where
  typ : PowerVSResourceType := .empty
  ID : Option String := none
  Name : Option String := none
  RegEx : Option String := none
  deriving DecidableEq, Repr

/-- MAPI `PowerVSSecretReference`. -/
structure PowerVSSecretReference where
  Name : String
  deriving DecidableEq, Repr

/-- A `field.Path` is modelled as the list of path segments; a
`field.Error` (from `field.Invalid`) keeps the path and the message. -/
structure FieldError where
  path : List String
  message : String
  deriving DecidableEq, Repr

/-- The error values flowing through the conversion: the two nil-input
sentinels, field-level validation errors, the wrapped marshalling error,
errors reported by the external metadata converters, and the top-level
`utilerrors.NewAggregate` wrapper. -/
inductive ConvError where
  | sentinelMachine
  | sentinelMachineSet
  | fieldInvalid : FieldError → ConvError
  | marshalErr : String → ConvError
  | externalErr : String → ConvError
  | aggregate : List ConvError → ConvError

/-- Labels / annotations metadata (Go `metav1.ObjectMeta` restricted to
the fields this engine reads and writes). -/
structure ObjectMeta where
  Labels : List (String × String) := []
  Annotations : List (String × String) := []
  deriving DecidableEq, Repr

/-- CAPI `Bootstrap` (the one field read: `DataSecretName`). -/
structure Bootstrap where
  DataSecretName : Option String := none
  deriving DecidableEq, Repr

/-- CAPI `MachineSpec` restricted to the fields this engine reads. -/
structure CAPIMachineSpec where
  Bootstrap : Bootstrap := {}
  deriving DecidableEq, Repr

/-- CAPI `Machine`. -/
structure CAPIMachine where
  ObjectMeta : ObjectMeta := {}
  Spec : CAPIMachineSpec := {}
  deriving DecidableEq, Repr

/-- CAPIBM `IBMPowerVSMachineSpec` restricted to the fields read by
`toProviderSpec`.  `Processors` (an `IntOrString`) and `ProcessorType`
are carried as opaque strings; `MemoryGiB` (int32) as `Int`. -/
structure IBMPowerVSMachineSpec where
  ServiceInstanceID : String := ""
  ServiceInstance : Option IBMPowerVSResourceReference := none
  Image : Option IBMPowerVSResourceReference := none
  ImageRef : Option LocalObjectReference := none
  Network : IBMPowerVSResourceReference := ⟨none, none, none⟩
  SSHKey : String := ""
  SystemType : String := ""
  ProcessorType : String := ""
  Processors : String := ""
  MemoryGiB : Int := 0
  deriving DecidableEq, Repr

/-- CAPIBM `IBMPowerVSMachine`. -/
structure IBMPowerVSMachine where
  Spec : IBMPowerVSMachineSpec := {}
  deriving DecidableEq, Repr

/-- CAPIBM `IBMPowerVSCluster`: only nil-checked by this engine, never
inspected, so it carries no fields here. -/
structure IBMPowerVSCluster where
  deriving DecidableEq, Repr

/-- CAPI `MachineSet` restricted to what the engine reads (its template
labels, annotations and spec, used by the `From...` constructor). -/
structure CAPIMachineSetTemplate where
  ObjectMeta : ObjectMeta := {}
  Spec : CAPIMachineSpec := {}
  deriving DecidableEq, Repr

structure CAPIMachineSetSpec where
  Template : CAPIMachineSetTemplate := {}
  deriving DecidableEq, Repr

structure CAPIMachineSet where
  ObjectMeta : ObjectMeta := {}
  Spec : CAPIMachineSetSpec := {}
  deriving DecidableEq, Repr

/-- CAPIBM `IBMPowerVSMachineTemplate` (its template spec feeds the
synthesized machine in the `From...` constructor). -/
structure IBMPowerVSMachineTemplateResource where
  Spec : IBMPowerVSMachineSpec := {}
  deriving DecidableEq, Repr

structure IBMPowerVSMachineTemplateSpec where
  Template : IBMPowerVSMachineTemplateResource := {}
  deriving DecidableEq, Repr

structure IBMPowerVSMachineTemplate where
  Spec : IBMPowerVSMachineTemplateSpec := {}
  deriving DecidableEq, Repr

/-- MAPI `PowerVSMachineProviderConfig`: the legacy flat provider config,
stamped with fixed kind/apiVersion. -/
structure PowerVSMachineProviderConfig where
  kind : String := ""
  apiVersion : String := ""
  ServiceInstance : PowerVSResource := {}
  Image : PowerVSResource := {}
  Network : PowerVSResource := {}
  KeyPairName : String := ""
  SystemType : String := ""
  ProcessorType : String := ""
  Processors : String := ""
  MemoryGiB : Int := 0
  UserDataSecret : Option PowerVSSecretReference := none
  deriving DecidableEq, Repr

/-- `runtime.RawExtension`: `Raw = none` models absent bytes (the empty
envelope `&RawExtension{}`); serialized bytes are carried as a string. -/
structure RawExtension where
  Raw : Option String := none
  deriving DecidableEq, Repr

/-- MAPI `Machine` restricted to what the engine writes: metadata and the
provider-spec slot (`Spec.ProviderSpec.Value`, a nilable RawExtension). -/
structure ProviderSpecSlot where
  Value : Option RawExtension := none
  deriving DecidableEq, Repr

structure MAPIMachineSpec where
  ProviderSpec : ProviderSpecSlot := {}
  deriving DecidableEq, Repr

structure MAPIMachine where
  ObjectMeta : ObjectMeta := {}
  Spec : MAPIMachineSpec := {}
  deriving DecidableEq, Repr

/-- MAPI `MachineSet` restricted to what the engine writes: its template
metadata and template spec. -/
structure MAPIMachineTemplate where
  ObjectMeta : ObjectMeta := {}
  Spec : MAPIMachineSpec := {}
  deriving DecidableEq, Repr

structure MAPIMachineSetSpec where
  Template : MAPIMachineTemplate := {}
  deriving DecidableEq, Repr

structure MAPIMachineSet where
  ObjectMeta : ObjectMeta := {}
  Spec : MAPIMachineSetSpec := {}
  deriving DecidableEq, Repr

/-- `machineAndPowerVSMachineAndPowerVSCluster`: the wrapper of the input
triple; every member is a nilable Go pointer. -/
structure MachineAndPowerVSMachineAndPowerVSCluster where
  machine : Option CAPIMachine
  powerVSMachine : Option IBMPowerVSMachine
  powerVSCluster : Option IBMPowerVSCluster
  deriving DecidableEq, Repr

/-- `machineSetAndPowerVSMachineTemplateAndPowerVSCluster`: the set-level
wrapper; the fourth member is the embedded (nilable) single-machine view,
`*machineAndPowerVSMachineAndPowerVSCluster`. -/
structure MachineSetAndPowerVSMachineTemplateAndPowerVSCluster where
  machineSet : Option CAPIMachineSet
  template : Option IBMPowerVSMachineTemplate
  powerVSCluster : Option IBMPowerVSCluster
  embedded : Option MachineAndPowerVSMachineAndPowerVSCluster
  deriving DecidableEq, Repr

/-- `FromMachineSetAndPowerVSMachineTemplateAndPowerVSCluster`: builds the
set wrapper, synthesizing the embedded single-machine view from the set's
template labels/annotations/spec and the template's machine spec. -/
def FromMachineSetAndPowerVSMachineTemplateAndPowerVSCluster
    (ms : CAPIMachineSet) (mts : IBMPowerVSMachineTemplate)
    (pc : Option IBMPowerVSCluster) :
    MachineSetAndPowerVSMachineTemplateAndPowerVSCluster :=
  { machineSet := some ms
    template := some mts
    powerVSCluster := pc
    embedded := some
      { machine := some
          { ObjectMeta :=
              { Labels := ms.Spec.Template.ObjectMeta.Labels
                Annotations := ms.Spec.Template.ObjectMeta.Annotations }
            Spec := ms.Spec.Template.Spec }
        powerVSMachine := some { Spec := mts.Spec.Template.Spec }
        powerVSCluster := pc } }

/-- `convertPowerVSNetworkToMAPI` (part_000 lines 232-250): ID, then Name,
then RegEx; otherwise `field.Invalid`. -/
def convertPowerVSNetworkToMAPI (fldPath : List String)
    (network : IBMPowerVSResourceReference) :
    PowerVSResource × Option FieldError :=
  match network.ID with
  | some i => ({ typ := .id, ID := some i }, none)
  | none =>
    match network.Name with
    | some n => ({ typ := .name, Name := some n }, none)
    | none =>
      match network.RegEx with
      | some r => ({ typ := .regex, RegEx := some r }, none)
      | none =>
        ({}, some ⟨fldPath, "unable to convert network to MAPI"⟩)

/-- `convertPowerVSImageToMAPI` (part_000 lines 252-277): error when both
`image` and `imageRef` are nil; else ID / Name / RegEx from a non-nil
`image`; else fall through to `imageRef.Name` — a nil-pointer dereference
(panic) when `image` is non-nil with all fields nil and `imageRef` is
nil. -/
def convertPowerVSImageToMAPI (fldPath : List String)
    (image : Option IBMPowerVSResourceReference)
    (imageRef : Option LocalObjectReference) :
    GoResult (PowerVSResource × Option FieldError) :=
  if image = none ∧ imageRef = none then
    .ok ({}, some ⟨fldPath, "unable to convert image, image and imageref is nil"⟩)
  else
    -- the fall-through tail of the Go function (lines 274-276): it reads
    -- `imageRef.Name`, a nil-pointer dereference when `imageRef` is nil
    let fallback : GoResult (PowerVSResource × Option FieldError) :=
      match imageRef with
      | some ref => .ok ({ typ := .name, Name := some ref.Name }, none)
      | none => .nilPanic
    match image with
    | some img =>
      match img.ID with
      | some i => .ok ({ typ := .id, ID := some i }, none)
      | none =>
        match img.Name with
        | some n => .ok ({ typ := .name, Name := some n }, none)
        | none =>
          match img.RegEx with
          | some r => .ok ({ typ := .regex, RegEx := some r }, none)
          | none => fallback
    | none => fallback

/-- `convertPowerVSServiceInstanceToMAPI` (part_000 lines 279-305): the
legacy scalar ID wins when non-empty; else the structured reference must
be non-nil and resolves ID, Name, RegEx in order; else `field.Invalid`. -/
def convertPowerVSServiceInstanceToMAPI (fldPath : List String)
    (serviceInstanceID : String)
    (serviceInstance : Option IBMPowerVSResourceReference) :
    PowerVSResource × Option FieldError :=
  if serviceInstanceID ≠ "" then
    ({ typ := .id, ID := some serviceInstanceID }, none)
  else
    match serviceInstance with
    | none =>
      ({}, some ⟨fldPath, "unable to convert service instance, service instance is nil"⟩)
    | some si =>
      match si.ID with
      | some i => ({ typ := .id, ID := some i }, none)
      | none =>
        match si.Name with
        | some n => ({ typ := .name, Name := some n }, none)
        | none =>
          match si.RegEx with
          | some r => ({ typ := .regex, RegEx := some r }, none)
          | none =>
            ({}, some ⟨fldPath, "unable to convert service instance to MAPI"⟩)

/-- `toProviderSpec` (part_000 lines 162-211): nil precondition check, the
three reference conversions with their field errors appended to a local
`errors` list, the provider config assembly stamped with the fixed
kind/apiVersion, the user-data secret derivation — and the source's
return `&mapiProviderConfig, warnings, nil` at line 210, which returns a
nil error unconditionally: the locally collected `errors` list is
discarded (bound here as `_errors` to mirror that the source never reads
it again). -/
def toProviderSpec (m : MachineAndPowerVSMachineAndPowerVSCluster) :
    GoResult (Option PowerVSMachineProviderConfig × List String × Option ConvError) :=
  match m.machine, m.powerVSMachine, m.powerVSCluster with
  | some machine, some powerVSMachine, some _ =>
    let fldPath : List String := ["spec"]
    let (serviceInstance, err₁) :=
      convertPowerVSServiceInstanceToMAPI (fldPath ++ ["serviceInstance"])
        powerVSMachine.Spec.ServiceInstanceID powerVSMachine.Spec.ServiceInstance
    let errors₁ : List FieldError := (err₁.map ([·])).getD []
    match convertPowerVSImageToMAPI (fldPath ++ ["image"])
        powerVSMachine.Spec.Image powerVSMachine.Spec.ImageRef with
    | .nilPanic => .nilPanic
    | .ok (image, err₂) =>
      let errors₂ := errors₁ ++ (err₂.map ([·])).getD []
      let (network, err₃) :=
        convertPowerVSNetworkToMAPI (fldPath ++ ["network"]) powerVSMachine.Spec.Network
      let _errors := errors₂ ++ (err₃.map ([·])).getD []
      let mapiProviderConfig : PowerVSMachineProviderConfig :=
        { kind := "PowerVSMachineProviderConfig"
          apiVersion := "machine.openshift.io/v1"
          ServiceInstance := serviceInstance
          Image := image
          Network := network
          KeyPairName := powerVSMachine.Spec.SSHKey
          SystemType := powerVSMachine.Spec.SystemType
          ProcessorType := powerVSMachine.Spec.ProcessorType
          Processors := powerVSMachine.Spec.Processors
          MemoryGiB := powerVSMachine.Spec.MemoryGiB }
      let userDataSecretName := machine.Spec.Bootstrap.DataSecretName.getD ""
      let mapiProviderConfig :=
        if userDataSecretName ≠ "" then
          { mapiProviderConfig with UserDataSecret := some ⟨userDataSecretName⟩ }
        else mapiProviderConfig
      .ok (some mapiProviderConfig, [], none)
  | _, _, _ => .ok (none, [], some .sentinelMachine)

/-- The external JSON serializer (`encoding/json.Marshal`), not part of
the sources: an abstract deterministic byte-serializer that either
produces bytes or fails with a message. -/
def JSONMarshal : Type := PowerVSMachineProviderConfig → Except String String

/-- `rawExtensionFromPowerVSProviderSpec` (part_000 lines 217-230): nil
spec yields the empty envelope and no error; otherwise the marshalled
bytes, or a nil envelope with the wrapped marshalling error. -/
def rawExtensionFromPowerVSProviderSpec (marshal : JSONMarshal)
    (spec : Option PowerVSMachineProviderConfig) :
    Option RawExtension × Option ConvError :=
  match spec with
  | none => (some {}, none)
  | some c =>
    match marshal c with
    | .ok rawBytes => (some { Raw := some rawBytes }, none)
    | .error e => (none, some (.marshalErr ("error marshalling providerSpec: " ++ e)))

/-- Modelled from the spec: `fromCAPIMachineToMAPIMachine`, the generic
metadata converter for a single machine, is not under src/ (spec §2
"Generic Metadata Converter", §4.4 step 3).  Per §4.4 steps 3 and 5 it
builds a skeleton output descriptor — to which the envelope is later
attached unconditionally — and may additionally report errors that are
collected; it is therefore modelled as any function returning a skeleton
machine together with an optional error. -/
def GenericMachineConverter : Type := CAPIMachine → MAPIMachine × Option ConvError

/-- Modelled from the spec: `fromCAPIMachineSetToMAPIMachineSet`, the
generic metadata converter for a machine set, is not under src/ (spec §2,
§4.5 step 3); modelled like `GenericMachineConverter`. -/
def GenericMachineSetConverter : Type := CAPIMachineSet → MAPIMachineSet × Option ConvError

/-- `ToMachine` (part_000 lines 85-119): nil precondition sentinel; then
`toProviderSpec`, the generic metadata conversion and the payload
encoder, each appending its error; the envelope is attached to the
provider-spec slot unconditionally; a non-empty error list yields a nil
machine and the aggregate. -/
def ToMachine (conv : GenericMachineConverter) (marshal : JSONMarshal)
    (m : MachineAndPowerVSMachineAndPowerVSCluster) :
    GoResult (Option MAPIMachine × List String × Option ConvError) :=
  match m.machine, m.powerVSMachine, m.powerVSCluster with
  | some machine, some _, some _ =>
    match toProviderSpec m with
    | .nilPanic => .nilPanic
    | .ok (mapiPowerVSSpec, warn, err₁) =>
      let errors₁ : List ConvError := (err₁.map ([·])).getD []
      let warnings : List String := [] ++ warn
      let (mapiMachine, err₂) := conv machine
      let errors₂ := errors₁ ++ (err₂.map ([·])).getD []
      let (powerVSRawExt, err₃) := rawExtensionFromPowerVSProviderSpec marshal mapiPowerVSSpec
      let errors₃ := errors₂ ++ (err₃.map ([·])).getD []
      let mapiMachine :=
        { mapiMachine with Spec := { mapiMachine.Spec with ProviderSpec := { Value := powerVSRawExt } } }
      match errors₃ with
      | [] => .ok (some mapiMachine, warnings, none)
      | es => .ok (none, warnings, some (.aggregate es))
  | _, _, _ => .ok (none, [], some .sentinelMachine)

/-- `ToMachineSet` (part_000 lines 122-157): nil precondition sentinel
over the four members (including the embedded single-machine view); then
the full `ToMachine` on the embedded view and the set-level metadata
conversion, each appending its error; then lines 146-150 copy the
per-machine result's spec, annotations and labels into the set's
template — reading fields of the per-machine result pointer, which is a
nil-pointer dereference (panic) whenever `ToMachine` returned an error
(it returns a nil machine alongside every error); a non-empty error list
yields a nil machine set and the aggregate. -/
def ToMachineSet (conv : GenericMachineConverter) (convSet : GenericMachineSetConverter)
    (marshal : JSONMarshal)
    (m : MachineSetAndPowerVSMachineTemplateAndPowerVSCluster) :
    GoResult (Option MAPIMachineSet × List String × Option ConvError) :=
  match m.machineSet, m.template, m.powerVSCluster, m.embedded with
  | some machineSet, some _, some _, some inner =>
    match ToMachine conv marshal inner with
    | .nilPanic => .nilPanic
    | .ok (mapiPowerVSMachine, warn, err₁) =>
      let errors₁ : List ConvError := (err₁.map ([·])).getD []
      let warnings : List String := [] ++ warn
      let (mapiMachineSet, err₂) := convSet machineSet
      let errors₂ := errors₁ ++ (err₂.map ([·])).getD []
      match mapiPowerVSMachine with
      | none => .nilPanic
      | some mach =>
        let mapiMachineSet :=
          { mapiMachineSet with Spec :=
              { mapiMachineSet.Spec with Template :=
                  { ObjectMeta :=
                      { mapiMachineSet.Spec.Template.ObjectMeta with
                          Annotations := mach.ObjectMeta.Annotations
                          Labels := mach.ObjectMeta.Labels }
                    Spec := mach.Spec } } }
        match errors₂ with
        | [] => .ok (some mapiMachineSet, warnings, none)
        | es => .ok (none, warnings, some (.aggregate es))
  | _, _, _, _ => .ok (none, [], some .sentinelMachineSet)

/-- Modelled from the spec: a concrete instance of the generic machine
metadata converter for evaluating the pipeline — it carries over the
input metadata (name, labels, annotations; spec §2 Generic Metadata
Converter) and reports no error. -/
def specGenericMachineConverter : GenericMachineConverter :=
  fun machine => ({ ObjectMeta := machine.ObjectMeta }, none)

/-- Modelled from the spec: a concrete instance of the generic machine
set metadata converter, carrying over the set's metadata and reporting no
error. -/
def specGenericMachineSetConverter : GenericMachineSetConverter :=
  fun machineSet => ({ ObjectMeta := machineSet.ObjectMeta }, none)

/-- Modelled from the spec: a concrete deterministic serializer instance
(always succeeds, as serialization of the well-formed config structure
does; §4.3 "should not occur for well-formed structures, but is
modeled"); the bytes are an opaque deterministic rendering, abbreviated
here to the config's kind stamp. -/
def specMarshal : JSONMarshal :=
  fun c => .ok c.kind

/-- Modelled from the spec: a serializer instance that fails with a
message, exercising the encoder's modelled failure branch (§4.3). -/
def failingMarshal : JSONMarshal :=
  fun _ => .error "cannot serialize"

/-! Projections over conversion results, used to state the claims. -/

/-- The error component of a normally returned conversion result is
`none` (the call neither panicked nor reported an error). -/
def resultErrorIsNone {α : Type} : GoResult (α × List String × Option ConvError) → Bool
  | .ok (_, _, none) => true
  | _ => false

/-- The returned descriptor of a normally returned conversion result is
non-nil. -/
def resultValueIsSome {α β : Type} : GoResult (Option α × β) → Bool
  | .ok (some _, _) => true
  | _ => false

/-- The call returned normally with a nil descriptor and a reported
error (the shape `ToMachine` produces on any collected error). -/
def resultIsNilWithError {α β : Type} : GoResult (Option α × β × Option ConvError) → Bool
  | .ok (none, _, some _) => true
  | _ => false

/-- The reference converter returned normally and reported a field
error. -/
def okWithFieldError : GoResult (PowerVSResource × Option FieldError) → Bool
  | .ok (_, some _) => true
  | _ => false

/-- The warnings component of a conversion result (empty on panic). -/
def goWarnings {α : Type} : GoResult (α × List String × Option ConvError) → List String
  | .ok (_, w, _) => w
  | .nilPanic => []

/-- The machine-set descriptor of a successful set conversion. -/
def extractMachineSet : GoResult (Option MAPIMachineSet × List String × Option ConvError) → MAPIMachineSet
  | .ok (some ms, _, _) => ms
  | _ => {}

/-- The machine descriptor of a successful machine conversion. -/
def extractMachine : GoResult (Option MAPIMachine × List String × Option ConvError) → MAPIMachine
  | .ok (some mach, _, _) => mach
  | _ => {}

/-- The provider config of a successful `toProviderSpec` run. -/
def extractProviderConfig :
    GoResult (Option PowerVSMachineProviderConfig × List String × Option ConvError) →
    PowerVSMachineProviderConfig
  | .ok (some cfg, _, _) => cfg
  | _ => {}

/-- Exactly one of {ID, Name, RegEx} is populated and the type tag names
that field. -/
def exactlyOneTag (r : PowerVSResource) : Bool :=
  match r.typ, r.ID, r.Name, r.RegEx with
  | .id, some _, none, none => true
  | .name, none, some _, none => true
  | .regex, none, none, some _ => true
  | _, _, _, _ => false

/-- The error is the wrapped marshalling error. -/
def ConvError.isMarshalErr : ConvError → Bool
  | .marshalErr _ => true
  | _ => false

/-- If an envelope was returned for a non-nil config, it carries bytes. -/
def envelopeBytesPresent : Option RawExtension → Bool
  | none => true
  | some env => env.Raw.isSome

/-- If an error was returned by the encoder, it is the wrapped
marshalling error. -/
def errorIsWrappedMarshal : Option ConvError → Bool
  | none => true
  | some e => e.isMarshalErr

/-! Concrete inputs used by the claims. -/

/-- A PowerVS machine whose three reference fields are all invalid: empty
legacy service-instance ID with nil structured reference, nil image and
nil image ref, and a network reference with none of ID/Name/RegEx set. -/
def c1PowerVSMachine : IBMPowerVSMachine := {}

/-- The input triple around `c1PowerVSMachine` (all three members
non-nil). -/
def c1Triple : MachineAndPowerVSMachineAndPowerVSCluster :=
  { machine := some {}, powerVSMachine := some c1PowerVSMachine, powerVSCluster := some {} }

/-- An embedded single-machine view with a nil machine member: the inner
`ToMachine` reports its sentinel error (and returns a nil machine). -/
def c2Inner : MachineAndPowerVSMachineAndPowerVSCluster :=
  { machine := none, powerVSMachine := some {}, powerVSCluster := some {} }

/-- A machine-set input whose four checked members are all non-nil but
whose embedded single-machine view is `c2Inner`. -/
def c2Set : MachineSetAndPowerVSMachineTemplateAndPowerVSCluster :=
  { machineSet := some {}
    template := some {}
    powerVSCluster := some {}
    embedded := some c2Inner }

/-- C1.  The claim says a triple with two or more independently invalid
fields yields an aggregate error from `ToMachine` with one entry per
invalid field.  On `c1Triple` all three reference fields are invalid and
each reference converter does report a field error — but `toProviderSpec`
discards its collected error list (part_000 line 210 returns a nil error
unconditionally), so `toProviderSpec` reports no error and `ToMachine`
returns a non-nil machine with no error at all. -/
theorem C1_field_errors_collected_then_dropped :
    (convertPowerVSServiceInstanceToMAPI ["spec", "serviceInstance"]
        c1PowerVSMachine.Spec.ServiceInstanceID c1PowerVSMachine.Spec.ServiceInstance).2.isSome = true
    ∧ okWithFieldError (convertPowerVSImageToMAPI ["spec", "image"]
        c1PowerVSMachine.Spec.Image c1PowerVSMachine.Spec.ImageRef) = true
    ∧ (convertPowerVSNetworkToMAPI ["spec", "network"]
        c1PowerVSMachine.Spec.Network).2.isSome = true
    ∧ resultErrorIsNone (toProviderSpec c1Triple) = true
    ∧ resultErrorIsNone (ToMachine specGenericMachineConverter specMarshal c1Triple) = true
    ∧ resultValueIsSome (ToMachine specGenericMachineConverter specMarshal c1Triple) = true :=
  ⟨rfl, rfl, rfl, rfl, rfl, rfl⟩

/-- C2.  The claim says that whenever the inner `ToMachine` errors,
`ToMachineSet` still completes, copies the partial per-machine result
into the set's template, and returns a nil descriptor plus the aggregate
error.  On `c2Set` the inner `ToMachine` does return an error (with a nil
machine, as it does alongside every error) — and `ToMachineSet` then
dereferences that nil machine at part_000 line 146 and panics instead of
completing. -/
theorem C2_toMachineSet_panics_when_inner_conversion_errors :
    resultIsNilWithError (ToMachine specGenericMachineConverter specMarshal c2Inner) = true
    ∧ ToMachineSet specGenericMachineConverter specGenericMachineSetConverter specMarshal c2Set
        = .nilPanic :=
  ⟨rfl, rfl⟩

/-- C3.  The claim says that whenever the structured image reference
resolves to no tag — whether the reference itself is nil or not — and no
fallback image-name reference is supplied, the image converter returns a
field-level validation error.  That holds when the reference is nil (second
conjunct), but when the reference is non-nil with all of ID/Name/RegEx nil
and the fallback is nil, the converter falls through to `&imageRef.Name`
(part_000 line 275) and dereferences the nil fallback: a panic, not a field
error. -/
theorem C3_image_converter_panics_on_empty_reference :
    convertPowerVSImageToMAPI ["spec", "image"] (some ⟨none, none, none⟩) none = .nilPanic
    ∧ convertPowerVSImageToMAPI ["spec", "image"] none none
        = .ok ({}, some ⟨["spec", "image"], "unable to convert image, image and imageref is nil"⟩) :=
  ⟨rfl, rfl⟩

/-- C4.  Precondition fast-fail: if any of {machine, infra-machine,
infra-cluster} is nil, `ToMachine` returns a nil descriptor, nil
warnings, and exactly the machine-level sentinel error; if any of
{machineSet, template, infra-cluster, embedded single-machine view} is
nil, `ToMachineSet` returns a nil descriptor, nil warnings, and exactly
the set-level sentinel error. -/
theorem C4_nil_precondition_sentinels
    (conv : GenericMachineConverter) (convSet : GenericMachineSetConverter)
    (marshal : JSONMarshal)
    (m : MachineAndPowerVSMachineAndPowerVSCluster)
    (ms : MachineSetAndPowerVSMachineTemplateAndPowerVSCluster)
    (hm : m.machine = none ∨ m.powerVSMachine = none ∨ m.powerVSCluster = none)
    (hms : ms.machineSet = none ∨ ms.template = none ∨ ms.powerVSCluster = none
      ∨ ms.embedded = none) :
    ToMachine conv marshal m = .ok (none, [], some .sentinelMachine)
    ∧ ToMachineSet conv convSet marshal ms = .ok (none, [], some .sentinelMachineSet) := by
  obtain ⟨m₁, m₂, m₃⟩ := m
  obtain ⟨s₁, s₂, s₃, s₄⟩ := ms
  refine ⟨?_, ?_⟩
  · cases m₁ <;> cases m₂ <;> cases m₃ <;> first | rfl | simp at hm
  · cases s₁ <;> cases s₂ <;> cases s₃ <;> cases s₄ <;> first | rfl | simp at hms

/-- Witness for C4 at concrete all-nil inputs. -/
theorem C4_nil_precondition_sentinels_witness :
    ToMachine specGenericMachineConverter specMarshal ⟨none, none, none⟩
        = .ok (none, [], some .sentinelMachine)
    ∧ ToMachineSet specGenericMachineConverter specGenericMachineSetConverter specMarshal
        ⟨none, none, none, none⟩ = .ok (none, [], some .sentinelMachineSet) :=
  C4_nil_precondition_sentinels specGenericMachineConverter specGenericMachineSetConverter
    specMarshal ⟨none, none, none⟩ ⟨none, none, none, none⟩ (Or.inl rfl) (Or.inl rfl)

/-- C5.  Reference precedence: whenever the legacy scalar service-instance
ID is non-empty, the service-instance converter returns the ID-tagged
reference carrying that scalar, whatever the structured reference holds
(including a fully populated one), and no error. -/
theorem C5_legacy_scalar_id_wins (fldPath : List String) (serviceInstanceID : String)
    (serviceInstance : Option IBMPowerVSResourceReference)
    (h : serviceInstanceID ≠ "") :
    convertPowerVSServiceInstanceToMAPI fldPath serviceInstanceID serviceInstance
      = ({ typ := .id, ID := some serviceInstanceID }, none) := by
  unfold convertPowerVSServiceInstanceToMAPI
  simp [h]

/-- Witness for C5: the scalar "si-123" beats a structured reference whose
ID and Name are both populated. -/
theorem C5_legacy_scalar_id_wins_witness :
    convertPowerVSServiceInstanceToMAPI ["spec", "serviceInstance"] "si-123"
        (some ⟨some "other-id", some "my-instance", none⟩)
      = ({ typ := .id, ID := some "si-123" }, none) :=
  C5_legacy_scalar_id_wins ["spec", "serviceInstance"] "si-123"
    (some ⟨some "other-id", some "my-instance", none⟩) (by decide)

/-- Any output of the network converter carrying no field error has
exactly one populated tag. -/
theorem convertPowerVSNetworkToMAPI_exclusive (fldPath : List String)
    (network : IBMPowerVSResourceReference) (r : PowerVSResource)
    (h : convertPowerVSNetworkToMAPI fldPath network = (r, none)) :
    exactlyOneTag r = true := by
  obtain ⟨i, n, g⟩ := network
  cases i <;> cases n <;> cases g <;>
    simp only [convertPowerVSNetworkToMAPI, Prod.mk.injEq, reduceCtorEq, and_false] at h <;>
    first
      | exact h.elim
      | (obtain ⟨h', -⟩ := h; subst h'; rfl)

/-- Any output of the image converter carrying no field error has exactly
one populated tag. -/
theorem convertPowerVSImageToMAPI_exclusive (fldPath : List String)
    (image : Option IBMPowerVSResourceReference) (imageRef : Option LocalObjectReference)
    (r : PowerVSResource)
    (h : convertPowerVSImageToMAPI fldPath image imageRef = .ok (r, none)) :
    exactlyOneTag r = true := by
  rcases image with _ | ⟨i, n, g⟩ <;> rcases imageRef with _ | ⟨nm⟩ <;>
    try (cases i <;> cases n <;> cases g)
  all_goals
    simp [convertPowerVSImageToMAPI] at h
  all_goals (subst h; rfl)

/-- Any output of the service-instance converter carrying no field error
has exactly one populated tag. -/
theorem convertPowerVSServiceInstanceToMAPI_exclusive (fldPath : List String)
    (serviceInstanceID : String) (serviceInstance : Option IBMPowerVSResourceReference)
    (r : PowerVSResource)
    (h : convertPowerVSServiceInstanceToMAPI fldPath serviceInstanceID serviceInstance
      = (r, none)) :
    exactlyOneTag r = true := by
  by_cases hid : serviceInstanceID = ""
  · subst hid
    rcases serviceInstance with _ | ⟨i, n, g⟩
    · simp [convertPowerVSServiceInstanceToMAPI] at h
    · cases i <;> cases n <;> cases g <;>
        simp only [convertPowerVSServiceInstanceToMAPI, if_neg, ne_eq, not_true_eq_false,
          if_false, reduceIte, Prod.mk.injEq, reduceCtorEq, and_false] at h <;>
        first
          | exact h.elim
          | (obtain ⟨h', -⟩ := h; subst h'; rfl)
  · unfold convertPowerVSServiceInstanceToMAPI at h
    rw [if_pos hid] at h
    obtain ⟨h', -⟩ := Prod.mk.injEq .. ▸ h
    subst h'
    rfl

/-- C6.  Tag exclusivity: any output that the network, image, or
service-instance converter returns without a field error has exactly one
of {ID, Name, RegEx} populated, and its type tag names that field. -/
theorem C6_tag_exclusivity (fldPath₁ fldPath₂ fldPath₃ : List String)
    (network : IBMPowerVSResourceReference)
    (image : Option IBMPowerVSResourceReference) (imageRef : Option LocalObjectReference)
    (serviceInstanceID : String) (serviceInstance : Option IBMPowerVSResourceReference)
    (rNet rImg rSI : PowerVSResource)
    (h₁ : convertPowerVSNetworkToMAPI fldPath₁ network = (rNet, none))
    (h₂ : convertPowerVSImageToMAPI fldPath₂ image imageRef = .ok (rImg, none))
    (h₃ : convertPowerVSServiceInstanceToMAPI fldPath₃ serviceInstanceID serviceInstance
      = (rSI, none)) :
    exactlyOneTag rNet = true ∧ exactlyOneTag rImg = true ∧ exactlyOneTag rSI = true :=
  ⟨convertPowerVSNetworkToMAPI_exclusive fldPath₁ network rNet h₁,
   convertPowerVSImageToMAPI_exclusive fldPath₂ image imageRef rImg h₂,
   convertPowerVSServiceInstanceToMAPI_exclusive fldPath₃ serviceInstanceID serviceInstance rSI h₃⟩

/-- Witness for C6 at concrete inputs: an ID-only network reference, a
nil image with a named fallback, a non-empty legacy service-instance
scalar. -/
theorem C6_tag_exclusivity_witness :
    exactlyOneTag { typ := .id, ID := some "net-1" } = true
    ∧ exactlyOneTag { typ := .name, Name := some "rhel-image" } = true
    ∧ exactlyOneTag { typ := .id, ID := some "si-123" } = true :=
  C6_tag_exclusivity ["spec", "network"] ["spec", "image"] ["spec", "serviceInstance"]
    ⟨some "net-1", none, none⟩ none (some ⟨"rhel-image"⟩) "si-123" none
    { typ := .id, ID := some "net-1" } { typ := .name, Name := some "rhel-image" }
    { typ := .id, ID := some "si-123" } rfl rfl rfl

/-- C7.  On every successful machine-set conversion, the set template's
labels, annotations and spec equal the labels, annotations and spec of
the corresponding single-machine conversion of the embedded view. -/
theorem C7_template_never_diverges_from_machine
    (conv : GenericMachineConverter) (convSet : GenericMachineSetConverter)
    (marshal : JSONMarshal)
    (m : MachineSetAndPowerVSMachineTemplateAndPowerVSCluster)
    (inner : MachineAndPowerVSMachineAndPowerVSCluster)
    (ms : MAPIMachineSet) (mach : MAPIMachine) (wms wm : List String)
    (hinner : m.embedded = some inner)
    (hset : ToMachineSet conv convSet marshal m = .ok (some ms, wms, none))
    (hmach : ToMachine conv marshal inner = .ok (some mach, wm, none)) :
    ms.Spec.Template.ObjectMeta.Labels = mach.ObjectMeta.Labels
    ∧ ms.Spec.Template.ObjectMeta.Annotations = mach.ObjectMeta.Annotations
    ∧ ms.Spec.Template.Spec = mach.Spec := by
  obtain ⟨s₁, s₂, s₃, s₄⟩ := m
  simp only at hinner
  subst hinner
  rcases s₁ with _ | capiMS <;> rcases s₂ with _ | tmpl <;> rcases s₃ with _ | pc <;>
    simp [ToMachineSet] at hset
  rw [hmach] at hset
  cases hc : (convSet capiMS).2 with
  | some e => simp [hc] at hset
  | none =>
    simp [hc] at hset
    obtain ⟨h₁, -⟩ := hset
    subst h₁
    exact ⟨rfl, rfl, rfl⟩

/-- A fully valid single-machine view used to witness C7. -/
def c7Inner : MachineAndPowerVSMachineAndPowerVSCluster :=
  { machine := some { ObjectMeta := { Labels := [("tier", "worker")] } }
    powerVSMachine := some
      { Spec :=
          { ServiceInstanceID := "si-1"
            Image := some ⟨some "img-1", none, none⟩
            Network := ⟨some "net-1", none, none⟩ } }
    powerVSCluster := some {} }

/-- A fully valid machine-set input around `c7Inner`. -/
def c7Set : MachineSetAndPowerVSMachineTemplateAndPowerVSCluster :=
  { machineSet := some {}
    template := some {}
    powerVSCluster := some {}
    embedded := some c7Inner }

/-- The machine set produced by converting `c7Set`. -/
def c7MachineSetResult : MAPIMachineSet :=
  extractMachineSet
    (ToMachineSet specGenericMachineConverter specGenericMachineSetConverter specMarshal c7Set)

/-- The machine produced by converting `c7Inner`. -/
def c7MachineResult : MAPIMachine :=
  extractMachine (ToMachine specGenericMachineConverter specMarshal c7Inner)

/-- Witness for C7 at the concrete successful conversion of `c7Set`. -/
theorem C7_template_never_diverges_from_machine_witness :
    c7MachineSetResult.Spec.Template.ObjectMeta.Labels = c7MachineResult.ObjectMeta.Labels
    ∧ c7MachineSetResult.Spec.Template.ObjectMeta.Annotations
        = c7MachineResult.ObjectMeta.Annotations
    ∧ c7MachineSetResult.Spec.Template.Spec = c7MachineResult.Spec :=
  C7_template_never_diverges_from_machine specGenericMachineConverter
    specGenericMachineSetConverter specMarshal c7Set c7Inner
    c7MachineSetResult c7MachineResult [] [] rfl rfl rfl

/-- C8.  Payload encoder: a nil config yields the empty envelope (no
bytes) and no error; a non-nil config yields an envelope exactly when it
yields no error, any returned envelope carries bytes, and any returned
error is the wrapped marshalling error — never both an envelope and an
error. -/
theorem C8_encoder_nil_empty_and_exclusive (marshal : JSONMarshal)
    (cfg : PowerVSMachineProviderConfig) :
    rawExtensionFromPowerVSProviderSpec marshal none = (some { Raw := none }, none)
    ∧ (rawExtensionFromPowerVSProviderSpec marshal (some cfg)).1.isNone
        = (rawExtensionFromPowerVSProviderSpec marshal (some cfg)).2.isSome
    ∧ envelopeBytesPresent (rawExtensionFromPowerVSProviderSpec marshal (some cfg)).1 = true
    ∧ errorIsWrappedMarshal (rawExtensionFromPowerVSProviderSpec marshal (some cfg)).2
        = true := by
  refine ⟨rfl, ?_, ?_, ?_⟩ <;>
    cases h : marshal cfg <;>
    simp [rawExtensionFromPowerVSProviderSpec, h, envelopeBytesPresent,
      errorIsWrappedMarshal, ConvError.isMarshalErr]

/-- C9.  The provider config built by a successful `toProviderSpec` run
carries a user-data secret reference exactly when the machine's bootstrap
data-secret name is present and non-empty — and carries that name; a nil
or empty name leaves the reference unset. -/
theorem C9_user_data_secret_iff_nonempty
    (m : MachineAndPowerVSMachineAndPowerVSCluster) (mach : CAPIMachine)
    (cfg : PowerVSMachineProviderConfig) (w : List String) (e : Option ConvError)
    (hmach : m.machine = some mach)
    (h : toProviderSpec m = .ok (some cfg, w, e)) :
    cfg.UserDataSecret =
      (match mach.Spec.Bootstrap.DataSecretName with
        | some n => if n = "" then none else some ⟨n⟩
        | none => none) := by
  obtain ⟨m₁, m₂, m₃⟩ := m
  simp only at hmach
  subst hmach
  rcases m₂ with _ | pm <;> rcases m₃ with _ | pc <;> simp [toProviderSpec] at h
  cases hc : convertPowerVSImageToMAPI ["spec", "image"] pm.Spec.Image pm.Spec.ImageRef with
  | nilPanic => rw [hc] at h; exact absurd h (by simp)
  | ok v =>
    rw [hc] at h
    simp at h
    obtain ⟨h₁, -, -⟩ := h
    subst h₁
    cases hd : mach.Spec.Bootstrap.DataSecretName with
    | none => simp [hd]
    | some n =>
      by_cases hn : n = ""
      · subst hn
        simp [hd]
      · simp [hd, hn]

/-- A valid input triple whose machine carries the bootstrap data-secret
name "user-data". -/
def c9Triple : MachineAndPowerVSMachineAndPowerVSCluster :=
  { machine := some { Spec := { Bootstrap := { DataSecretName := some "user-data" } } }
    powerVSMachine := some
      { Spec :=
          { ServiceInstanceID := "si-1"
            Image := some ⟨some "img-1", none, none⟩
            Network := ⟨some "net-1", none, none⟩ } }
    powerVSCluster := some {} }

/-- The provider config produced from `c9Triple`. -/
def c9Cfg : PowerVSMachineProviderConfig :=
  extractProviderConfig (toProviderSpec c9Triple)

/-- Witness for C9 at `c9Triple`: the reference carries "user-data". -/
theorem C9_user_data_secret_iff_nonempty_witness :
    c9Cfg.UserDataSecret =
      (match (some "user-data" : Option String) with
        | some n => if n = "" then none else some ⟨n⟩
        | none => none) :=
  C9_user_data_secret_iff_nonempty c9Triple
    { Spec := { Bootstrap := { DataSecretName := some "user-data" } } }
    c9Cfg [] none rfl rfl

/-- C10.  No conversion ever emits a warning: the warnings component of
`toProviderSpec`, `ToMachine` and `ToMachineSet` is empty for every
input and every instantiation of the external collaborators. -/
theorem C10_no_warnings_ever
    (conv : GenericMachineConverter) (convSet : GenericMachineSetConverter)
    (marshal : JSONMarshal)
    (m : MachineAndPowerVSMachineAndPowerVSCluster)
    (ms : MachineSetAndPowerVSMachineTemplateAndPowerVSCluster) :
    goWarnings (toProviderSpec m) = []
    ∧ goWarnings (ToMachine conv marshal m) = []
    ∧ goWarnings (ToMachineSet conv convSet marshal ms) = [] := by
  have hps : ∀ m' : MachineAndPowerVSMachineAndPowerVSCluster,
      goWarnings (toProviderSpec m') = [] := by
    intro m'
    obtain ⟨m₁, m₂, m₃⟩ := m'
    rcases m₁ with _ | mach <;> rcases m₂ with _ | pm <;> rcases m₃ with _ | pc <;>
      simp [toProviderSpec, goWarnings]
    cases hc : convertPowerVSImageToMAPI ["spec", "image"] pm.Spec.Image pm.Spec.ImageRef <;>
      simp [hc, goWarnings]
  have hm : ∀ m' : MachineAndPowerVSMachineAndPowerVSCluster,
      goWarnings (ToMachine conv marshal m') = [] := by
    intro m'
    obtain ⟨m₁, m₂, m₃⟩ := m'
    rcases m₁ with _ | mach <;> rcases m₂ with _ | pm <;> rcases m₃ with _ | pc <;>
      try simp [ToMachine, goWarnings]
    have hw := hps ⟨some mach, some pm, some pc⟩
    cases hc : toProviderSpec ⟨some mach, some pm, some pc⟩ with
    | nilPanic => simp [ToMachine, hc, goWarnings]
    | ok v =>
      obtain ⟨r, w, e⟩ := v
      rw [hc] at hw
      simp [goWarnings] at hw
      subst hw
      simp only [ToMachine, hc]
      rcases e with _ | e₁ <;> rcases hc₂ : (conv mach).2 with _ | e₂ <;>
        rcases hc₃ : (rawExtensionFromPowerVSProviderSpec marshal r).2 with _ | e₃ <;>
        simp [hc₂, hc₃, goWarnings]
  refine ⟨hps m, hm m, ?_⟩
  obtain ⟨s₁, s₂, s₃, s₄⟩ := ms
  rcases s₁ with _ | capiMS <;> rcases s₂ with _ | tmpl <;> rcases s₃ with _ | pc <;>
    rcases s₄ with _ | inner <;> try simp [ToMachineSet, goWarnings]
  have hw := hm inner
  cases hc : ToMachine conv marshal inner with
  | nilPanic => simp [ToMachineSet, hc, goWarnings]
  | ok v =>
    obtain ⟨r, w, e⟩ := v
    rw [hc] at hw
    simp [goWarnings] at hw
    subst hw
    simp only [ToMachineSet, hc]
    rcases r with _ | mach
    · rfl
    · rcases e with _ | e₁ <;> rcases hc₂ : (convSet capiMS).2 with _ | e₂ <;>
        simp [hc₂, goWarnings]

end Capi2Mapi
